import Mathlib

/-!
# Verification of the Video Clipper core (clipper.py)

Shallow embedding of the pure/numeric core of `src/clipper.py`:
timecode sanitisation, centered crop-box computation, and the
value-level behaviour of the vertical-clip export pipeline.

Python floats are modelled as exact rationals (ℚ); Python `round`
(banker's rounding, round-half-to-even) is modelled by `roundHalfEven`;
Python `int()` truncation by `py_int`; Python integer floor division
`//` by `Int.fdiv`.  Exceptions are modelled by `Except ClipperError`.
Filesystem contents are modelled as a list of path strings where a
claim needs them.
-/

set_option maxRecDepth 100000

deriving instance DecidableEq for Except

namespace VideoClipper

/-- Errors of the clipper module: `DownloadError` and `ProcessingError`
subclasses of `ClipperError`, each carrying its message string. -/
inductive ClipperError where
  | downloadError (msg : String)
  | processingError (msg : String)
  deriving DecidableEq, Repr

/-- Message raised by `sanitize_timecodes` when `duration <= 0`
(the spec's `InvalidDuration`). -/
def invalidDurationMsg : String := "Video duration is zero."

/-- Message raised when the clamped window is shorter than `min_length`
(the spec's `SelectionTooShort`). -/
def selectionTooShortMsg : String := "Clip selection is too short. Increase the end time."

/-- Message raised when the clamped start is not before the duration
(the spec's `StartOutOfBounds`). -/
def startOutOfBoundsMsg : String := "Start time falls outside the video."

/-- Message raised when the clamped end is not after the clamped start
(the spec's `EndNotAfterStart`). -/
def endNotAfterStartMsg : String := "End time must be greater than start time."

/-- Message raised by `compute_crop_box` on non-positive dimensions
(the spec's `InvalidDimensions`). -/
def invalidDimensionsMsg : String := "Invalid dimensions for crop computation."

/-- Axis-aligned crop rectangle, as the `CropBox` dataclass. -/
structure CropBox where
  x1 : ℤ
  y1 : ℤ
  x2 : ℤ
  y2 : ℤ
  deriving DecidableEq, Repr

/-- Derived attribute `CropBox.width = x2 - x1`. -/
def CropBox.width (b : CropBox) : ℤ := b.x2 - b.x1

/-- Derived attribute `CropBox.height = y2 - y1`. -/
def CropBox.height (b : CropBox) : ℤ := b.y2 - b.y1

/-- Python `round` on a real value: round to the nearest integer,
ties to the even integer (banker's rounding). -/
def roundHalfEven (q : ℚ) : ℤ :=
  let f : ℤ := q.floor
  if q - f < 1/2 then f
  else if 1/2 < q - f then f + 1
  else if f % 2 = 0 then f else f + 1

/-- Python `round(x, 3)`: round to 3 decimal places (millisecond
precision), ties to even. -/
def round3 (q : ℚ) : ℚ := (roundHalfEven (1000 * q) : ℚ) / 1000

/-- Python `int()` on a float: truncation toward zero. -/
def py_int (q : ℚ) : ℤ := if 0 ≤ q then q.floor else q.ceil

/-- Embedding of `sanitize_timecodes(start, end, duration, min_length=0.5)`:
clamp and validate requested start/end timestamps.  Python's keyword
default `min_length=0.5` is passed explicitly by callers here. -/
def sanitize_timecodes (start end_ duration min_length : ℚ) :
    Except ClipperError (ℚ × ℚ) :=
  if duration ≤ 0 then .error (.processingError invalidDurationMsg)
  else
    let start' := max 0 start
    let end' := min end_ duration
    if end' - start' < min_length then .error (.processingError selectionTooShortMsg)
    else if start' ≥ duration then .error (.processingError startOutOfBoundsMsg)
    else if end' ≤ start' then .error (.processingError endNotAfterStartMsg)
    else .ok (round3 start', round3 end')

/-- Embedding of `math.isclose(a, b, rel_tol)` with the default
`abs_tol = 0.0`: true iff `|a - b| <= max(rel_tol*|a|, rel_tol*|b|)`. -/
def isclose (a b rel_tol : ℚ) : Bool :=
  |a - b| ≤ max (rel_tol * |a|) (rel_tol * |b|)

/-- Embedding of `compute_crop_box(width, height, target_width,
target_height)`: centered crop box preserving as much content as
possible.  Python `//` is `Int.fdiv`, `round` is `roundHalfEven`. -/
def compute_crop_box (width height target_width target_height : ℤ) :
    Except ClipperError CropBox :=
  if width ≤ 0 ∨ height ≤ 0 ∨ target_width ≤ 0 ∨ target_height ≤ 0 then
    .error (.processingError invalidDimensionsMsg)
  else
    let src_ratio : ℚ := (width : ℚ) / (height : ℚ)
    let dest_ratio : ℚ := (target_width : ℚ) / (target_height : ℚ)
    if isclose src_ratio dest_ratio (1/1000) then
      .ok ⟨0, 0, width, height⟩
    else if src_ratio > dest_ratio then
      let new_width : ℤ := roundHalfEven ((height : ℚ) * dest_ratio)
      let offset_x : ℤ := Int.fdiv (width - new_width) 2
      .ok ⟨offset_x, 0, offset_x + new_width, height⟩
    else
      let new_height : ℤ := roundHalfEven ((width : ℚ) / dest_ratio)
      let offset_y : ℤ := Int.fdiv (height - new_height) 2
      .ok ⟨0, offset_y, width, offset_y + new_height⟩

/-- Metadata returned by `get_video_metadata`: duration, optional frame
rate, pixel dimensions and file size of a local video file. -/
structure MediaMeta where
  duration : ℚ
  fps : Option ℚ
  width : ℤ
  height : ℤ
  filesize : ℤ
  deriving DecidableEq, Repr

/-- Final path component of a POSIX path string, as Python
`pathlib.Path(source).name`: the segment after the last `/`.
Computed by a left fold that restarts at every separator. -/
def last_component (sep : Char) (cs : List Char) : List Char :=
  cs.foldl (fun acc c => if c = sep then [] else acc ++ [c]) []

/-- Index of the last `.` in a character list, if any. -/
def last_dot_idx (cs : List Char) : Option Nat :=
  (List.range cs.length).foldl
    (fun acc i => if cs.getD i ' ' = '.' then some i else acc) none

/-- Python `pathlib.Path(source).stem`: the final path component with
its last suffix removed.  Following pathlib, the suffix is dropped only
when the last dot sits strictly inside the name (index `i` with
`0 < i < len - 1`); names like `.bashrc` or `file.` keep their dot. -/
def path_stem (source : String) : String :=
  let name := last_component '/' source.data
  match last_dot_idx name with
  | some i => if 0 < i ∧ i + 1 < name.length then String.mk (name.take i) else String.mk name
  | none => String.mk name

/-- Embedding of `_apply_vertical_transform` at the value level: the
crop box it computes from the clip dimensions and the target
resolution (the frame-level crop/resize effects have no value-level
content; a geometry failure propagates as the raised error). -/
def apply_vertical_transform (clip_w clip_h : ℤ) (resolution : ℤ × ℤ) :
    Except ClipperError CropBox :=
  compute_crop_box clip_w clip_h resolution.1 resolution.2

/-- Embedding of the encode step of `export_vertical_clip` (the
`try/except/finally` block around `write_videofile`): `encode` is the
outcome of the `write_videofile` call and `files_after_write` the set
of paths on disk when it returns or raises (on failure ffmpeg may have
left an incomplete file at `output_path`).  The `finally` block closes
the clip handles and unlinks the temporary audio file; an encode
failure is re-raised as `ProcessingError` wrapping the message. -/
def export_encode_step (output_path temp_audio : String)
    (encode : Except String Unit) (files_after_write : List String) :
    Except ClipperError String × List String :=
  match encode with
  | .error msg =>
      (.error (.processingError ("Unable to export clip: " ++ msg)), files_after_write.erase temp_audio)
  | .ok _ => (.ok output_path, files_after_write.erase temp_audio)

/-- Embedding of `export_vertical_clip(source, start, end, output_dir,
resolution, preset, audio_bitrate)` at the value level.  External
effects are oracle parameters: `meta` is the outcome of
`get_video_metadata(source)` (its width/height also serve as the
decoded clip's `clip.w`/`clip.h`), `temp_audio` the name of the
temporary audio file, `encode` the outcome of `write_videofile`, and
`files_after_write` the on-disk paths when the encode step finishes.
Python's `Path(output_dir) / filename` is string concatenation with
`/`; `int()` on the sanitized bounds is `py_int`; `sanitize_timecodes`
is called with its default `min_length = 0.5`. -/
def export_vertical_clip (source : String) (start end_ : ℚ)
    (output_dir : String) (resolution : ℤ × ℤ)
    (meta : Except ClipperError MediaMeta) (temp_audio : String)
    (encode : Except String Unit) (files_after_write : List String) :
    Except ClipperError String :=
  match meta with
  | .error e => .error e
  | .ok m =>
    match sanitize_timecodes start end_ m.duration (1/2) with
    | .error e => .error e
    | .ok trimmed =>
      match apply_vertical_transform m.width m.height resolution with
      | .error e => .error e
      | .ok _crop_box =>
        let filename := "short_" ++ path_stem source ++ "_" ++ toString (py_int trimmed.1)
          ++ "_" ++ toString (py_int trimmed.2) ++ ".mp4"
        let output_path := output_dir ++ "/" ++ filename
        (export_encode_step output_path temp_audio encode files_after_write).1

/-! ## Helper lemmas on rounding -/

/-- Batteries' computable `Rat.floor` agrees with Mathlib's `Int.floor`. -/
lemma ratFloor_eq_intFloor (q : ℚ) : q.floor = ⌊q⌋ := by
  rw [Rat.floor_def', Rat.floor_def]

/-- Banker's rounding returns the floor or the floor plus one. -/
lemma roundHalfEven_eq_floor_or (q : ℚ) :
    roundHalfEven q = ⌊q⌋ ∨ roundHalfEven q = ⌊q⌋ + 1 := by
  simp only [roundHalfEven, ratFloor_eq_intFloor]
  split_ifs <;> simp

/-- Banker's rounding of a nonnegative value is nonnegative. -/
lemma roundHalfEven_nonneg {q : ℚ} (h : 0 ≤ q) : 0 ≤ roundHalfEven q := by
  have hf : 0 ≤ ⌊q⌋ := Int.floor_nonneg.mpr h
  rcases roundHalfEven_eq_floor_or q with h1 | h1 <;> omega

/-- Banker's rounding of a value strictly below an integer stays at or
below that integer. -/
lemma roundHalfEven_le_of_lt {q : ℚ} {n : ℤ} (h : q < n) : roundHalfEven q ≤ n := by
  have hf : ⌊q⌋ < n := Int.floor_lt.mpr h
  rcases roundHalfEven_eq_floor_or q with h1 | h1 <;> omega

/-- Banker's rounding moves a value up by at most one half. -/
lemma roundHalfEven_le (q : ℚ) : (roundHalfEven q : ℚ) ≤ q + 1/2 := by
  have hf : (⌊q⌋ : ℚ) ≤ q := Int.floor_le q
  simp only [roundHalfEven, ratFloor_eq_intFloor]
  split_ifs with h1 h2 h3 <;> push_cast <;> linarith

/-- Banker's rounding moves a value down by at most one half. -/
lemma le_roundHalfEven (q : ℚ) : q - 1/2 ≤ (roundHalfEven q : ℚ) := by
  have hf : (⌊q⌋ : ℚ) ≤ q := Int.floor_le q
  have hc : q < ⌊q⌋ + 1 := Int.lt_floor_add_one q
  simp only [roundHalfEven, ratFloor_eq_intFloor]
  split_ifs with h1 h2 h3 <;> push_cast <;> linarith

/-- Banker's rounding is monotone. -/
lemma roundHalfEven_mono {a b : ℚ} (h : a ≤ b) : roundHalfEven a ≤ roundHalfEven b := by
  have hfab : ⌊a⌋ ≤ ⌊b⌋ := Int.floor_le_floor h
  rcases lt_or_le ⌊a⌋ ⌊b⌋ with hlt | hle
  · have ha := roundHalfEven_eq_floor_or a
    have hb := roundHalfEven_eq_floor_or b
    omega
  · have heq : ⌊b⌋ = ⌊a⌋ := le_antisymm hle hfab
    simp only [roundHalfEven, ratFloor_eq_intFloor, heq]
    split_ifs <;> first | omega | linarith

/-- Banker's rounding fixes integers. -/
lemma roundHalfEven_intCast (n : ℤ) : roundHalfEven (n : ℚ) = n := by
  have h0 : ((n : ℚ) - (n : ℤ)) < 1/2 := by norm_num
  simp only [roundHalfEven, ratFloor_eq_intFloor, Int.floor_intCast]
  rw [if_pos h0]

/-- Millisecond rounding of a nonnegative value is nonnegative. -/
lemma round3_nonneg {q : ℚ} (h : 0 ≤ q) : 0 ≤ round3 q := by
  have := roundHalfEven_nonneg (q := 1000 * q) (by linarith)
  unfold round3
  positivity

/-- Millisecond rounding is monotone. -/
lemma round3_mono {a b : ℚ} (h : a ≤ b) : round3 a ≤ round3 b := by
  have hm : roundHalfEven (1000 * a) ≤ roundHalfEven (1000 * b) :=
    roundHalfEven_mono (by linarith)
  unfold round3
  have : (roundHalfEven (1000 * a) : ℚ) ≤ (roundHalfEven (1000 * b) : ℚ) := by
    exact_mod_cast hm
  linarith

/-- Millisecond rounding moves a value up by at most half a millisecond. -/
lemma round3_le (q : ℚ) : round3 q ≤ q + 1/2000 := by
  have := roundHalfEven_le (1000 * q)
  unfold round3
  linarith

/-- Millisecond rounding moves a value down by at most half a millisecond. -/
lemma le_round3 (q : ℚ) : q - 1/2000 ≤ round3 q := by
  have := le_roundHalfEven (1000 * q)
  unfold round3
  linarith

/-- Millisecond rounding fixes integer multiples of one thousandth. -/
lemma round3_thousandth (k : ℤ) : round3 ((k : ℚ) / 1000) = (k : ℚ) / 1000 := by
  unfold round3
  rw [mul_div_cancel₀ (k : ℚ) (by norm_num), roundHalfEven_intCast]

/-- Success elimination for `sanitize_timecodes`: a successful call means
the duration was positive, the clamped window passed every check, and the
result is the millisecond rounding of the clamped bounds. -/
lemma sanitize_ok_elim {start end_ duration min_length s e : ℚ}
    (h : sanitize_timecodes start end_ duration min_length = .ok (s, e)) :
    0 < duration ∧
    min_length ≤ min end_ duration - max 0 start ∧
    max 0 start < duration ∧
    max 0 start < min end_ duration ∧
    s = round3 (max 0 start) ∧ e = round3 (min end_ duration) := by
  simp only [sanitize_timecodes] at h
  split_ifs at h with h1 h2 h3 h4
  simp only [Except.ok.injEq, Prod.mk.injEq] at h
  refine ⟨by linarith [not_le.mp h1], by linarith [not_lt.mp h2],
    by linarith [not_le.mp h3], by linarith [not_le.mp h4], h.1.symm, h.2.symm⟩

/-! ## Claim theorems: timecode validation -/

/-- C2 counterexample: the claimed TimeWindow invariant fails as stated.
At start 0, end 0.9006, duration 0.9006 the call succeeds and returns
end: 0.901, which exceeds the duration, so `end <= duration` is violated
by the millisecond rounding. -/
theorem sanitize_window_invariant_counterexample :
    sanitize_timecodes 0 (4503/5000) (4503/5000) (1/2) = Except.ok (0, 901/1000) ∧
      ¬((901 : ℚ)/1000 ≤ 4503/5000) := by
  with_unfolding_all decide

/-- C2 (amended): on success the returned pair satisfies the TimeWindow
invariant up to millisecond rounding: `0 ≤ start' ≤ end'`,
`end' ≤ duration + 1/2000`, `end' - start' ≥ min_length - 1/1000`, and
`start' < end'` strictly whenever `min_length > 1/1000` (so in
particular with the default `min_length = 0.5`). -/
theorem sanitize_ok_window_bounds (start end_ duration min_length s e : ℚ)
    (h : sanitize_timecodes start end_ duration min_length = .ok (s, e)) :
    0 ≤ s ∧ s ≤ e ∧ e ≤ duration + 1/2000 ∧
    min_length - 1/1000 ≤ e - s ∧
    (1/1000 < min_length → s < e) := by
  obtain ⟨hd, hlen, hsd, hse, hs, he⟩ := sanitize_ok_elim h
  subst hs
  subst he
  have ha0 : (0 : ℚ) ≤ max 0 start := le_max_left 0 start
  have hbd : min end_ duration ≤ duration := min_le_right _ _
  have h1 : 0 ≤ round3 (max 0 start) := round3_nonneg ha0
  have h2 : round3 (max 0 start) ≤ round3 (min end_ duration) :=
    round3_mono (le_of_lt hse)
  have h3 := round3_le (min end_ duration)
  have h4 := le_round3 (min end_ duration)
  have h5 := round3_le (max 0 start)
  exact ⟨h1, h2, by linarith, by linarith, fun hm => by linarith⟩

/-- C2 witness: instantiation at sanitize(0, 10, 10, 0.5) = (0, 10). -/
theorem sanitize_ok_window_bounds_witness :
    0 ≤ (0 : ℚ) ∧ (0 : ℚ) ≤ 10 ∧ (10 : ℚ) ≤ 10 + 1/2000 ∧
    (1 : ℚ)/2 - 1/1000 ≤ 10 - 0 ∧ ((1 : ℚ)/1000 < 1/2 → (0 : ℚ) < 10) :=
  sanitize_ok_window_bounds 0 10 10 (1/2) 0 10 (by with_unfolding_all decide)

/-- C3 counterexample: `sanitize(-5, duration + 1000, duration)` does not
succeed for every positive duration.  At duration 0.3 the clamped window
is 0.3s, shorter than the default minimum length 0.5s, so the call fails
with SelectionTooShort instead of returning (0, 0.3). -/
theorem sanitize_clamp_full_window_counterexample :
    sanitize_timecodes (-5) ((3 : ℚ)/10 + 1000) (3/10) (1/2) ≠
      Except.ok (0, 3/10) := by
  with_unfolding_all decide

/-- C3 (amended): for every duration at least the default minimum length
0.5 that is an integer multiple of one millisecond (so that rounding to
3 decimals fixes it), `sanitize(-5, duration + 1000, duration)` succeeds
and returns exactly `(0, duration)`. -/
theorem sanitize_clamp_full_window (duration : ℚ) (k : ℤ)
    (hhalf : 1/2 ≤ duration) (hk : duration = (k : ℚ) / 1000) :
    sanitize_timecodes (-5) (duration + 1000) duration (1/2) =
      Except.ok (0, duration) := by
  have hmax : max (0 : ℚ) (-5) = 0 := by norm_num
  have hmin : min (duration + 1000) duration = duration := min_eq_right (by linarith)
  have hr0 : round3 (0 : ℚ) = 0 := by simpa using round3_thousandth 0
  simp only [sanitize_timecodes, hmax, hmin, hr0]
  rw [if_neg (by linarith), if_neg (by linarith), if_neg (by linarith),
    if_neg (by linarith)]
  rw [hk, round3_thousandth]

/-- C3 witness: instantiation at duration 100. -/
theorem sanitize_clamp_full_window_witness :
    sanitize_timecodes (-5) (100 + 1000) 100 (1/2) = Except.ok (0, 100) :=
  sanitize_clamp_full_window 100 100000 (by norm_num) (by norm_num)

/-- C5: whenever the duration is positive and the clamped window
`min(end, duration) - max(0, start)` is shorter than `min_length`, the
call fails with SelectionTooShort (the check runs right after clamping). -/
theorem sanitize_selection_too_short (start end_ duration min_length : ℚ)
    (hd : 0 < duration)
    (hshort : min end_ duration - max 0 start < min_length) :
    sanitize_timecodes start end_ duration min_length =
      Except.error (.processingError selectionTooShortMsg) := by
  simp only [sanitize_timecodes]
  rw [if_neg (not_le.mpr hd), if_pos hshort]

/-- C5 witness: sanitize(10.0, 10.1, 10.0) clamps to a 0-length window
and fails with SelectionTooShort. -/
theorem sanitize_selection_too_short_witness :
    sanitize_timecodes 10 (101/10) 10 (1/2) =
      Except.error (.processingError selectionTooShortMsg) :=
  sanitize_selection_too_short 10 (101/10) 10 (1/2) (by norm_num)
    (by with_unfolding_all decide)

/-- C10: for a positive minimum length the StartOutOfBounds and
EndNotAfterStart branches are unreachable: every failure is
InvalidDuration or SelectionTooShort, and whenever the duration is
positive and the clamped window passes the minimum-length check, the
clamped start is below the duration and the clamped end above the
clamped start. -/
theorem sanitize_failures_classified (start end_ duration min_length : ℚ)
    (hpos : 0 < min_length) :
    (∀ err, sanitize_timecodes start end_ duration min_length = .error err →
        err = .processingError invalidDurationMsg ∨
        err = .processingError selectionTooShortMsg) ∧
    (0 < duration → min_length ≤ min end_ duration - max 0 start →
        max 0 start < duration ∧ max 0 start < min end_ duration) := by
  constructor
  · intro err herr
    simp only [sanitize_timecodes] at herr
    split_ifs at herr with c1 c2 c3 c4
    · simp only [Except.error.injEq] at herr
      exact Or.inl herr.symm
    · simp only [Except.error.injEq] at herr
      exact Or.inr herr.symm
    · exfalso
      have hbd : min end_ duration ≤ duration := min_le_right _ _
      have hc2 := not_lt.mp c2
      have hc3 : duration ≤ max 0 start := c3
      linarith
    · exfalso
      have hc2 := not_lt.mp c2
      linarith
  · intro hd hlen
    have hbd : min end_ duration ≤ duration := min_le_right _ _
    exact ⟨by linarith, by linarith⟩

/-- C10 witness: the failure at sanitize(0, 0.1, 10, 0.5) is classified
as one of the two reachable errors. -/
theorem sanitize_failures_classified_witness :
    ClipperError.processingError selectionTooShortMsg =
        ClipperError.processingError invalidDurationMsg ∨
    ClipperError.processingError selectionTooShortMsg =
        ClipperError.processingError selectionTooShortMsg :=
  (sanitize_failures_classified 0 (1/10) 10 (1/2) (by norm_num)).1 _
    (by with_unfolding_all decide)

/-! ## Claim theorems: crop geometry -/

/-- Relative closeness holds reflexively for a nonnegative tolerance. -/
lemma isclose_self (a rel_tol : ℚ) (h : 0 ≤ rel_tol) : isclose a a rel_tol = true := by
  simp only [isclose, sub_self, abs_zero, max_self, decide_eq_true_eq]
  positivity

/-- C1 counterexample: the strict CropBox invariant fails as stated.
With a 1x1 source and a 1:1000 target the rounded crop width is 0, so
the returned box has `x1 = x2 = 0` and strictly positive width fails. -/
theorem crop_box_strict_bounds_counterexample :
    compute_crop_box 1 1 1 1000 = Except.ok ⟨0, 0, 0, 1⟩ ∧
      ¬(CropBox.x1 ⟨0, 0, 0, 1⟩ < CropBox.x2 ⟨0, 0, 0, 1⟩) := by
  with_unfolding_all decide

/-- C1 (amended): for positive inputs every returned box satisfies the
invariant with non-strict inner inequalities:
`0 ≤ x1 ≤ x2 ≤ width` and `0 ≤ y1 ≤ y2 ≤ height` (the box can be
degenerate — zero width or height — for extreme aspect ratios where the
rounded target dimension is 0). -/
theorem crop_box_bounds_within_frame (width height target_width target_height : ℤ)
    (hw : 0 < width) (hh : 0 < height)
    (htw : 0 < target_width) (hth : 0 < target_height) (box : CropBox)
    (h : compute_crop_box width height target_width target_height = .ok box) :
    0 ≤ box.x1 ∧ box.x1 ≤ box.x2 ∧ box.x2 ≤ width ∧
    0 ≤ box.y1 ∧ box.y1 ≤ box.y2 ∧ box.y2 ≤ height := by
  have hwq : (0 : ℚ) < (width : ℚ) := by exact_mod_cast hw
  have hhq : (0 : ℚ) < (height : ℚ) := by exact_mod_cast hh
  have htwq : (0 : ℚ) < (target_width : ℚ) := by exact_mod_cast htw
  have hthq : (0 : ℚ) < (target_height : ℚ) := by exact_mod_cast hth
  have hdest : (0 : ℚ) < (target_width : ℚ) / (target_height : ℚ) := by positivity
  simp only [compute_crop_box] at h
  split_ifs at h with hguard hclose hratio
  · simp only [Except.ok.injEq] at h
    subst h
    exact ⟨le_refl 0, hw.le, le_refl width, le_refl 0, hh.le, le_refl height⟩
  · -- source wider than target: horizontal center crop
    simp only [Except.ok.injEq] at h
    subst h
    have hlt : (height : ℚ) * ((target_width : ℚ) / (target_height : ℚ)) < (width : ℚ) := by
      have := (lt_div_iff₀ hhq).mp hratio
      linarith [this]
    have hnw0 : 0 ≤ roundHalfEven ((height : ℚ) * ((target_width : ℚ) / (target_height : ℚ))) :=
      roundHalfEven_nonneg (by positivity)
    have hnww : roundHalfEven ((height : ℚ) * ((target_width : ℚ) / (target_height : ℚ))) ≤ width :=
      roundHalfEven_le_of_lt (by exact_mod_cast hlt)
    dsimp only
    rw [Int.fdiv_eq_ediv _ (by norm_num)]
    refine ⟨?_, ?_, ?_, le_refl 0, hh.le, le_refl height⟩ <;> omega
  · -- source narrower than target: vertical center crop
    simp only [Except.ok.injEq] at h
    subst h
    have hne : (width : ℚ) / (height : ℚ) ≠ (target_width : ℚ) / (target_height : ℚ) := by
      intro heq
      exact hclose (heq ▸ isclose_self _ _ (by norm_num))
    have hlt : (width : ℚ) / (height : ℚ) < (target_width : ℚ) / (target_height : ℚ) :=
      lt_of_le_of_ne (not_lt.mp hratio) hne
    have hlt2 : (width : ℚ) / ((target_width : ℚ) / (target_height : ℚ)) < (height : ℚ) := by
      rw [div_lt_iff₀ hdest]
      have := (div_lt_iff₀ hhq).mp hlt
      linarith [this]
    have hnh0 : 0 ≤ roundHalfEven ((width : ℚ) / ((target_width : ℚ) / (target_height : ℚ))) :=
      roundHalfEven_nonneg (by positivity)
    have hnhh : roundHalfEven ((width : ℚ) / ((target_width : ℚ) / (target_height : ℚ))) ≤ height :=
      roundHalfEven_le_of_lt (by exact_mod_cast hlt2)
    dsimp only
    rw [Int.fdiv_eq_ediv _ (by norm_num)]
    refine ⟨le_refl 0, hw.le, le_refl width, ?_, ?_, ?_⟩ <;> omega

/-- C1 witness: instantiation at the 1920x1080 to 1080x1920 center crop. -/
theorem crop_box_bounds_within_frame_witness :
    0 ≤ CropBox.x1 ⟨656, 0, 1264, 1080⟩ ∧
    CropBox.x1 ⟨656, 0, 1264, 1080⟩ ≤ CropBox.x2 ⟨656, 0, 1264, 1080⟩ ∧
    CropBox.x2 ⟨656, 0, 1264, 1080⟩ ≤ 1920 ∧
    0 ≤ CropBox.y1 ⟨656, 0, 1264, 1080⟩ ∧
    CropBox.y1 ⟨656, 0, 1264, 1080⟩ ≤ CropBox.y2 ⟨656, 0, 1264, 1080⟩ ∧
    CropBox.y2 ⟨656, 0, 1264, 1080⟩ ≤ 1080 :=
  crop_box_bounds_within_frame 1920 1080 1080 1920 (by norm_num) (by norm_num)
    (by norm_num) (by norm_num) ⟨656, 0, 1264, 1080⟩ (by with_unfolding_all decide)

/-- C6: the 1920x1080 landscape source cropped for a 1080x1920 vertical
target gives the centered box x1 = 656, y1 = 0 with width 608 and
height 1080. -/
theorem crop_box_1920_1080_center_crop :
    compute_crop_box 1920 1080 1080 1920 = Except.ok ⟨656, 0, 1264, 1080⟩ ∧
    CropBox.width ⟨656, 0, 1264, 1080⟩ = 608 ∧
    CropBox.height ⟨656, 0, 1264, 1080⟩ = 1080 := by
  with_unfolding_all decide

/-- C7: for positive dimensions whose aspect ratios are close within
relative tolerance 1e-3 the full source frame is returned uncropped. -/
theorem crop_box_full_frame_when_isclose (width height target_width target_height : ℤ)
    (hw : 0 < width) (hh : 0 < height)
    (htw : 0 < target_width) (hth : 0 < target_height)
    (hclose : isclose ((width : ℚ) / (height : ℚ))
      ((target_width : ℚ) / (target_height : ℚ)) (1/1000) = true) :
    compute_crop_box width height target_width target_height =
      Except.ok ⟨0, 0, width, height⟩ := by
  simp only [compute_crop_box]
  rw [if_neg (by push_neg; exact ⟨hw, hh, htw, hth⟩), if_pos hclose]

/-- C7 witness: a 1080x1920 source already matching the 1080x1920 target
is returned as the full frame. -/
theorem crop_box_full_frame_when_isclose_witness :
    compute_crop_box 1080 1920 1080 1920 = Except.ok ⟨0, 0, 1080, 1920⟩ :=
  crop_box_full_frame_when_isclose 1080 1920 1080 1920 (by norm_num) (by norm_num)
    (by norm_num) (by norm_num) (by with_unfolding_all decide)

/-! ## Claim theorems: export pipeline -/

/-- Python `int()` agrees with the floor on nonnegative values. -/
lemma py_int_eq_floor {q : ℚ} (h : 0 ≤ q) : py_int q = ⌊q⌋ := by
  simp only [py_int, if_pos h, ratFloor_eq_intFloor]

/-- C4 counterexample: on encode failure the incomplete output file is
not deleted.  With the partial output present after a failed write, the
error is surfaced while the output path is still on disk (only the
temporary audio file is removed). -/
theorem encode_failure_partial_output_counterexample :
    (export_encode_step "out/short_a_0_10.mp4" "tmp123.m4a" (Except.error "boom")
        ["out/short_a_0_10.mp4", "tmp123.m4a"]).1 =
      Except.error (.processingError "Unable to export clip: boom") ∧
    "out/short_a_0_10.mp4" ∈
      (export_encode_step "out/short_a_0_10.mp4" "tmp123.m4a" (Except.error "boom")
        ["out/short_a_0_10.mp4", "tmp123.m4a"]).2 := by
  with_unfolding_all decide

/-- C4 (amended): if the encode step fails, the error surfaced is
`ProcessingError` wrapping the underlying message, and the cleanup
removes only the temporary audio file: any partial output file at the
output path (distinct from the temporary audio file) remains on disk. -/
theorem encode_failure_cleanup (output_path temp_audio msg : String)
    (files_after_write : List String)
    (hmem : output_path ∈ files_after_write) (hne : output_path ≠ temp_audio) :
    (export_encode_step output_path temp_audio (Except.error msg) files_after_write).1 =
      Except.error (.processingError ("Unable to export clip: " ++ msg)) ∧
    (export_encode_step output_path temp_audio (Except.error msg) files_after_write).2 =
      files_after_write.erase temp_audio ∧
    output_path ∈
      (export_encode_step output_path temp_audio (Except.error msg) files_after_write).2 := by
  refine ⟨rfl, rfl, ?_⟩
  simp only [export_encode_step]
  exact (List.mem_erase_of_ne hne).mpr hmem

/-- C4 witness: instantiation at a failed encode that left a partial
output file next to the temporary audio file. -/
theorem encode_failure_cleanup_witness :
    (export_encode_step "clips/short_v_3_9.mp4" "audio7.m4a" (Except.error "disk full")
        ["clips/short_v_3_9.mp4", "audio7.m4a"]).1 =
      Except.error (.processingError ("Unable to export clip: " ++ "disk full")) ∧
    (export_encode_step "clips/short_v_3_9.mp4" "audio7.m4a" (Except.error "disk full")
        ["clips/short_v_3_9.mp4", "audio7.m4a"]).2 =
      (["clips/short_v_3_9.mp4", "audio7.m4a"] : List String).erase "audio7.m4a" ∧
    "clips/short_v_3_9.mp4" ∈
      (export_encode_step "clips/short_v_3_9.mp4" "audio7.m4a" (Except.error "disk full")
        ["clips/short_v_3_9.mp4", "audio7.m4a"]).2 :=
  encode_failure_cleanup "clips/short_v_3_9.mp4" "audio7.m4a" "disk full"
    ["clips/short_v_3_9.mp4", "audio7.m4a"] (by simp) (by decide)

/-- C8: every successful export returns
`outputDir/short_{sourceStem}_{floor(start)}_{floor(end)}.mp4` where
`(start, end)` is the sanitized time window and the stem is the source
file name without its extension. -/
theorem export_output_path_format (source : String) (start end_ : ℚ)
    (output_dir : String) (resolution : ℤ × ℤ) (m : MediaMeta)
    (temp_audio : String) (encode : Except String Unit)
    (files_after_write : List String) (ts te : ℚ) (p : String)
    (hs : sanitize_timecodes start end_ m.duration (1/2) = .ok (ts, te))
    (hp : export_vertical_clip source start end_ output_dir resolution (.ok m)
        temp_audio encode files_after_write = .ok p) :
    p = output_dir ++ "/" ++ ("short_" ++ path_stem source ++ "_" ++
        toString ⌊ts⌋ ++ "_" ++ toString ⌊te⌋ ++ ".mp4") := by
  obtain ⟨hd, hlen, hsd, hse, hts, hte⟩ := sanitize_ok_elim hs
  have hts0 : 0 ≤ ts := by
    rw [hts]; exact round3_nonneg (le_max_left 0 start)
  have htste : ts ≤ te := by
    rw [hts, hte]; exact round3_mono (le_of_lt hse)
  have hte0 : 0 ≤ te := le_trans hts0 htste
  simp only [export_vertical_clip, hs] at hp
  cases hcrop : apply_vertical_transform m.width m.height resolution with
  | error e =>
    rw [hcrop] at hp
    exact absurd hp (by simp)
  | ok cb =>
    rw [hcrop] at hp
    cases encode with
    | error msg => exact absurd hp (by simp [export_encode_step])
    | ok u =>
      simp only [export_encode_step, Except.ok.injEq] at hp
      rw [← hp, py_int_eq_floor hts0, py_int_eq_floor hte0]

/-- C8 witness: a concrete successful export of videos/myclip.mp4 from
0s to 10s lands at out/short_myclip_0_10.mp4. -/
theorem export_output_path_format_witness :
    "out/short_myclip_0_10.mp4" =
      "out" ++ "/" ++ ("short_" ++ path_stem "videos/myclip.mp4" ++ "_" ++
        toString ⌊(0 : ℚ)⌋ ++ "_" ++ toString ⌊(10 : ℚ)⌋ ++ ".mp4") :=
  export_output_path_format "videos/myclip.mp4" 0 10 "out" (1080, 1920)
    ⟨10, some 30, 1920, 1080, 5000⟩ "t.m4a" (Except.ok ()) [] 0 10
    "out/short_myclip_0_10.mp4" (by with_unfolding_all decide)
    (by with_unfolding_all decide)

/-- C9: a metadata failure and a timecode-validation failure propagate
out of `export_vertical_clip` unchanged (same error, same message),
while an encode failure is wrapped as `ProcessingError` carrying the
underlying message. -/
theorem export_error_propagation (source : String) (start end_ : ℚ)
    (output_dir : String) (resolution : ℤ × ℤ) (temp_audio : String)
    (encode : Except String Unit) (files_after_write : List String) :
    (∀ err, export_vertical_clip source start end_ output_dir resolution
        (.error err) temp_audio encode files_after_write = .error err) ∧
    (∀ m err, sanitize_timecodes start end_ m.duration (1/2) = .error err →
        export_vertical_clip source start end_ output_dir resolution (.ok m)
          temp_audio encode files_after_write = .error err) ∧
    (∀ m trimmed cb msg, sanitize_timecodes start end_ m.duration (1/2) = .ok trimmed →
        apply_vertical_transform m.width m.height resolution = .ok cb →
        encode = .error msg →
        export_vertical_clip source start end_ output_dir resolution (.ok m)
          temp_audio encode files_after_write =
          .error (.processingError ("Unable to export clip: " ++ msg))) := by
  refine ⟨fun err => rfl, fun m err hs => ?_, fun m trimmed cb msg hs hc he => ?_⟩
  · simp only [export_vertical_clip, hs]
  · simp only [export_vertical_clip, hs, hc, he, export_encode_step]

/-- C9 witness: a concrete encode failure is wrapped with the
underlying message. -/
theorem export_error_propagation_witness :
    export_vertical_clip "v.mp4" 0 10 "out" (1080, 1920)
        (.ok ⟨10, some 30, 1920, 1080, 5000⟩) "t.m4a" (Except.error "boom") [] =
      Except.error (.processingError ("Unable to export clip: " ++ "boom")) :=
  (export_error_propagation "v.mp4" 0 10 "out" (1080, 1920) "t.m4a"
      (Except.error "boom") []).2.2 ⟨10, some 30, 1920, 1080, 5000⟩ (0, 10)
    ⟨656, 0, 1264, 1080⟩ "boom" (by with_unfolding_all decide)
    (by with_unfolding_all decide) rfl

end VideoClipper

